import Mathlib

/-!
Shallow embedding of the node-comfy-ui-client library, translated from the
compiled CommonJS build (src/unnamed/part_000), which is the build the
package ships.  The client wraps HTTP calls to a ComfyUI server behind a
single helper (cfetch), manages one optional WebSocket reference (connect,
disconnect), and offers a composite operation (getImages) that submits a
prompt, watches the socket for the matching completion frame, fetches the
history record and the produced image artifacts, and resolves with a map
from output-node id to fetched artifacts.

Modelling conventions:
- JavaScript values returned by res.json() are modelled by the inductive
  Json; JavaScript truthiness is the function jsFalsy.
- A fallible await (a throwing call) is an Except String result.
- The HTTP layer is an oracle: an HttpResponse records the status code, the
  outcome of res.json() (an Except, since parsing a non-JSON body throws),
  and the bytes res.blob() would yield.
- WebSocket text frames are modelled by the outcome of JSON.parse on their
  payload, at the event schema the client consumes
  (type, data.node : string or null, data.prompt_id).
- Effects (HTTP requests, observer registration, socket open and close) are
  reified as ClientAction values so that which effects occur, and in which
  order, is provable.
-/

def executingKind : String := "executing"

def errorKey : String := "error"

def promptEndpoint : String := "prompt"

def postMethod : String := "POST"

def getMethod : String := "GET"

def typeErrorMsg : String := "TypeError"

def notConnectedMsg : String := "WebSocket client is not connected. Please call connect() before interacting."

/-- Result of JSON.parse or res.json: a JavaScript JSON value. -/
inductive Json where
  | null
  | bool (b : Bool)
  | num (n : Int)
  | str (s : String)
  | arr (elems : List Json)
  | obj (fields : List (String × Json))

/-- JavaScript truthiness test used by the if-guards of the source
(null, false, 0 and the empty string are falsy; objects and arrays,
empty or not, are truthy). -/
def jsFalsy : Json → Bool
  | Json.null => true
  | Json.bool b => !b
  | Json.num n => n == 0
  | Json.str s => s == ""
  | Json.arr _ => false
  | Json.obj _ => false

/-- The JavaScript in-operator: defined on objects and arrays, throws a
TypeError on primitives.  Used by cfetch for the error-field check. -/
def jsInCheck (j : Json) (k : String) : Except String Bool :=
  match j with
  | Json.obj fields => Except.ok (fields.any (fun p => p.1 == k))
  | Json.arr _ => Except.ok false
  | _ => Except.error typeErrorMsg

/-- Lookup of a key in an association list, as JavaScript property access
on an object literal (first binding wins; absent key is undefined). -/
def lookupKey (k : String) : List (String × α) → Option α
  | [] => none
  | p :: rest => if p.1 = k then some p.2 else lookupKey k rest

/-- Raw bytes of a fetched artifact (the contents of a Blob). -/
abbrev Blob := List Nat

/-- The params object taken by cfetch.  A field left out of a JavaScript
object literal reads back as undefined, which is falsy, so the Bool fields
default to false; the data field holds the request body when present. -/
structure FetchParams where
  method : String := getMethod
  json : Bool := false
  blob : Bool := false
  data : Option String := none
  searchParams : Option String := none

/-- The default value of the params argument of cfetch, used whenever a
caller passes only the endpoint. -/
def defaultFetchParams : FetchParams :=
  { method := getMethod, json := true }

/-- JavaScript truthiness of the request body slot. -/
def dataTruthy : Option String → Bool
  | none => false
  | some s => s != ""

/-- HTTP method chosen by cfetch: POST when a body is present or the params
ask for POST, else GET. -/
def cfetchMethod (params : FetchParams) : String :=
  if dataTruthy params.data || params.method == postMethod then postMethod else getMethod

/-- Oracle for one HTTP exchange: the status the server answered with, the
outcome of parsing the body as JSON, and the body bytes as a blob. -/
structure HttpResponse where
  status : Nat
  jsonBody : Except String Json
  blobBody : Blob

/-- What cfetch hands back to its caller: null, a parsed JSON body, or a
binary blob. -/
inductive CFetchResult where
  | null
  | json (j : Json)
  | blob (b : Blob)

/-- The cfetch helper of the client: a non-200 status short-circuits to
null before any body parsing; in json mode the body is parsed (a throwing
parse propagates), a falsy body or a body carrying an error field yields
null, any other body is returned; in blob mode the body bytes are
returned; otherwise the result is null. -/
def cfetch (params : FetchParams) (res : HttpResponse) : Except String CFetchResult :=
  if res.status ≠ 200 then Except.ok CFetchResult.null
  else if params.json then
    match res.jsonBody with
    | Except.error e => Except.error e
    | Except.ok j =>
      if jsFalsy j then Except.ok CFetchResult.null
      else
        match jsInCheck j errorKey with
        | Except.error e => Except.error e
        | Except.ok true => Except.ok CFetchResult.null
        | Except.ok false => Except.ok (CFetchResult.json j)
  else if params.blob then Except.ok (CFetchResult.blob res.blobBody)
  else Except.ok CFetchResult.null

/-- The curl helper: scheme from the secure option, then server address,
endpoint and the clientId query parameter. -/
def curl (secure : Bool) (serverAddress clientId endpoint : String) : String :=
  (if secure then "https" else "http") ++ "://" ++ serverAddress ++ "/" ++ endpoint
    ++ "?clientId=" ++ clientId

/-- Endpoint string built by getObjectInfo.  The template literal in the
source ends with a stray text fragment (a space, a colon, a space and two
quote characters) after the interpolation, so that fragment is part of the
endpoint it requests. -/
def getObjectInfoEndpoint (nodeClass : Option String) : String :=
  "object_info" ++
    (match nodeClass with
     | some nc => if nc == "" then "" else "/" ++ nc
     | none => "") ++ " : ''"

/-- Simple rendering of URLSearchParams for the view endpoint. -/
def encodeQuery : List (String × String) → String
  | [] => ""
  | [p] => p.1 ++ "=" ++ p.2
  | p :: rest => p.1 ++ "=" ++ p.2 ++ "&" ++ encodeQuery rest

/-- The params getImage passes to cfetch: GET, search params for the
artifact reference, json off, blob on. -/
def getImageParams (filename subfolder ftype : String) : FetchParams :=
  { method := getMethod,
    searchParams := some (encodeQuery [(("filename" : String), filename),
      (("subfolder" : String), subfolder), (("type" : String), ftype)]),
    json := false,
    blob := true }

/-- getImage: fetch one artifact through cfetch in blob mode. -/
def getImage (filename subfolder ftype : String) (res : HttpResponse) :
    Except String CFetchResult :=
  cfetch (getImageParams filename subfolder ftype) res

/-- The params queuePrompt passes to cfetch: POST with a JSON body; the
object literal in the source carries no json and no blob field. -/
def queuePromptParams (body : String) : FetchParams :=
  { method := postMethod, data := some body }

/-- queuePrompt: submit the prompt through cfetch. -/
def queuePrompt (body : String) (res : HttpResponse) : Except String CFetchResult :=
  cfetch (queuePromptParams body) res

/-- Artifact reference named by a history record: filename, subfolder and
the type field of the image entry. -/
structure ImageRef where
  filename : String
  subfolder : String
  ftype : String
deriving DecidableEq

/-- One output node of a history record.  The images key may be absent
(none); when present it lists the artifact references, possibly empty. -/
structure NodeOutput where
  images : Option (List ImageRef)
deriving DecidableEq

/-- The history record of one prompt, as consumed by getImages: its outputs
object, key order preserved. -/
structure HistoryEntry where
  outputs : List (String × NodeOutput)
deriving DecidableEq

/-- One collected artifact: the result of the binary fetch (null when the
view request failed) together with the original artifact reference. -/
structure ImageContainer where
  blob : Option Blob
  image : ImageRef
deriving DecidableEq

/-- The payload of an executing event frame. -/
structure WsMessageData where
  node : Option String
  prompt_id : String
deriving DecidableEq

/-- A parsed text frame at the schema the client consumes. -/
structure WsMessage where
  kind : String
  data : WsMessageData
deriving DecidableEq

/-- A WebSocket frame as delivered to the observer: a binary frame, or a
text frame represented by the outcome of JSON.parse on its payload. -/
inductive Frame where
  | binary
  | text (parsed : Except String WsMessage)

/-- JavaScript truthiness of the node field (null and the empty string are
both falsy). -/
def optStrFalsy : Option String → Bool
  | none => true
  | some s => s == ""

/-- Environment of the observer: the decoded outcome of the getHistory call
for the submitted prompt id (error when the awaited call threw, ok none
when cfetch yielded null, ok some when it yielded the history table), and
the per-artifact result of getImage. -/
structure ObsEnv where
  historyRes : Except String (Option (List (String × HistoryEntry)))
  fetchImage : ImageRef → Option Blob

/-- What one onMessage invocation does with a frame: nothing, resolve the
promise with a result mapping, or reject it with an error. -/
inductive StepResult where
  | ignore
  | resolved (out : List (String × List ImageContainer))
  | rejected (err : String)
deriving DecidableEq

/-- Membership of a key in a key list, as a Boolean. -/
def memStr (k : String) : List String → Bool
  | [] => false
  | x :: rest => if x = k then true else memStr k rest

/-- All keys pairwise distinct, as JavaScript object keys are. -/
def keysDistinct : List String → Bool
  | [] => true
  | k :: rest => if memStr k rest then false else keysDistinct rest

/-- Whether an association list already binds a key. -/
def hasKey (fields : List (String × α)) (k : String) : Bool :=
  match fields with
  | [] => false
  | p :: rest => if p.1 = k then true else hasKey rest k

/-- JavaScript object assignment obj[k] = v: replace the binding in place
when the key exists, append a new binding otherwise. -/
def objAssign (fields : List (String × α)) (k : String) (v : α) : List (String × α) :=
  if hasKey fields k then fields.map (fun p => if p.1 = k then (k, v) else p)
  else fields ++ [(k, v)]

/-- The population loop of the observer: for each output node of the
history record, when its images key is present, fetch every listed
artifact and assign the list to the result object under the node id;
nodes without an images key are skipped. -/
def collectImages (fetch : ImageRef → Option Blob) :
    List (String × NodeOutput) → List (String × List ImageContainer) →
    List (String × List ImageContainer)
  | [], acc => acc
  | p :: rest, acc =>
    match p.2.images with
    | none => collectImages fetch rest acc
    | some imgs =>
      collectImages fetch rest
        (objAssign acc p.1 (imgs.map (fun i => { blob := fetch i, image := i })))

/-- The onMessage observer of getImages, as a function of the captured
prompt id, the HTTP oracle, the accumulated result object and one incoming
frame.  Binary frames are skipped; a failing JSON.parse rejects; a text
frame acts only when its kind is executing, its node field is falsy and
its prompt_id equals the captured one, in which case the history record is
fetched (a throwing await, a null history result, or a missing prompt key
each reject) and the promise resolves with the populated result object. -/
def onMessage (pid : String) (env : ObsEnv)
    (acc : List (String × List ImageContainer)) (f : Frame) : StepResult :=
  match f with
  | Frame.binary => StepResult.ignore
  | Frame.text (Except.error e) => StepResult.rejected e
  | Frame.text (Except.ok msg) =>
    if msg.kind = executingKind then
      if optStrFalsy msg.data.node then
        if msg.data.prompt_id = pid then
          match env.historyRes with
          | Except.error e => StepResult.rejected e
          | Except.ok none => StepResult.rejected typeErrorMsg
          | Except.ok (some table) =>
            match lookupKey pid table with
            | none => StepResult.rejected typeErrorMsg
            | some hist =>
              StepResult.resolved (collectImages env.fetchImage hist.outputs acc)
        else StepResult.ignore
      else StepResult.ignore
    else StepResult.ignore

/-- State of the pending getImages promise and of its observer: whether the
observer is still registered on the socket, the shared result object the
closure mutates, and the settled value of the promise (none while
pending; a promise settles at most once). -/
structure ObsState where
  registered : Bool
  outputImages : List (String × List ImageContainer)
  settled : Option (Except String (List (String × List ImageContainer)))

/-- The state right after getImages registers its observer. -/
def initObsState : ObsState :=
  { registered := true, outputImages := [], settled := none }

/-- Delivery of one frame: a deregistered observer sees nothing; an
ignored frame changes nothing; a resolving frame deregisters the observer
and settles the promise when it is still pending; a rejecting frame
settles the promise when pending but leaves the observer registered (the
source removes the listener only on the success path). -/
def deliverFrame (pid : String) (env : ObsEnv) (st : ObsState) (f : Frame) : ObsState :=
  if st.registered = false then st
  else
    match onMessage pid env st.outputImages f with
    | StepResult.ignore => st
    | StepResult.resolved out =>
      { registered := false, outputImages := out,
        settled := some (st.settled.getD (Except.ok out)) }
    | StepResult.rejected e =>
      { st with settled := some (st.settled.getD (Except.error e)) }

/-- Delivery of a list of frames in arrival order. -/
def deliverFrames (pid : String) (env : ObsEnv) (st : ObsState) :
    List Frame → ObsState
  | [] => st
  | f :: rest => deliverFrames pid env (deliverFrame pid env st f) rest

/-- The completion frame of a prompt: an executing event with a null node
and the prompt id. -/
def completionFrame (pid : String) : Frame :=
  Frame.text (Except.ok { kind := executingKind, data := { node := none, prompt_id := pid } })

/-- Boolean test for text frames that parse to a message of another job. -/
def frameHasOtherPid (pid : String) : Frame → Bool
  | Frame.text (Except.ok msg) => msg.data.prompt_id != pid
  | _ => false

/-- Effects the client performs, reified for the proofs: an HTTP exchange
against an endpoint, registration of a message observer, and the closing
or opening of a WebSocket (identified by a number). -/
inductive ClientAction where
  | httpRequest (endpoint : String) (method : String)
  | registerObserver
  | wsClose (c : Nat)
  | wsOpen (c : Nat)
deriving DecidableEq

/-- Whether an action opens a WebSocket. -/
def ClientAction.isWsOpen : ClientAction → Bool
  | ClientAction.wsOpen _ => true
  | _ => false

/-- The client state getImages reads: the optional WebSocket reference. -/
structure ClientState where
  ws : Option Nat

/-- Oracle for one getImages call: the HTTP response to the submission
request, the observer environment, and the frames the socket delivers
after the observer is registered. -/
structure GetImagesEnv where
  promptResponse : HttpResponse
  obs : ObsEnv
  frames : List Frame

/-- How one getImages call ends: a throw (no ws, or the submission await
threw), the early resolution with an empty object when the submission
result is falsy, or the listening phase with the observer state the
delivered frames produce. -/
inductive GetImagesOutcome where
  | thrown (err : String)
  | earlyEmpty
  | listening (final : ObsState)

/-- Whether an outcome is a throw or rejection of the operation. -/
def GetImagesOutcome.isThrown : GetImagesOutcome → Bool
  | GetImagesOutcome.thrown _ => true
  | _ => false

/-- One getImages call: its outcome together with the actions it performed,
in order. -/
structure GetImagesRun where
  actions : List ClientAction
  outcome : GetImagesOutcome

/-- JavaScript truthiness of a cfetch result. -/
def cresFalsy : CFetchResult → Bool
  | CFetchResult.null => true
  | CFetchResult.json j => jsFalsy j
  | CFetchResult.blob _ => false

/-- Reading the prompt_id string property off a cfetch result. -/
def cresPromptId (r : CFetchResult) : String :=
  match r with
  | CFetchResult.json (Json.obj fields) =>
    match lookupKey ("prompt_id" : String) fields with
    | some (Json.str s) => s
    | _ => ""
  | _ => ""

/-- getImages: with no WebSocket reference it throws the not-connected
error before doing anything; otherwise it submits the prompt (a throwing
await propagates), returns an empty object when the submission result is
falsy, and otherwise registers the observer and waits, the delivered
frames driving the observer state. -/
def getImages (st : ClientState) (body : String) (env : GetImagesEnv) : GetImagesRun :=
  match st.ws with
  | none => { actions := [], outcome := GetImagesOutcome.thrown notConnectedMsg }
  | some _ =>
    match queuePrompt body env.promptResponse with
    | Except.error e =>
      { actions := [ClientAction.httpRequest promptEndpoint postMethod],
        outcome := GetImagesOutcome.thrown e }
    | Except.ok queue =>
      if cresFalsy queue then
        { actions := [ClientAction.httpRequest promptEndpoint postMethod],
          outcome := GetImagesOutcome.earlyEmpty }
      else
        { actions := [ClientAction.httpRequest promptEndpoint postMethod,
            ClientAction.registerObserver],
          outcome := GetImagesOutcome.listening
            (deliverFrames (cresPromptId queue) env.obs initObsState env.frames) }

/-- Client connection state for the connect and disconnect lifecycle: the
WebSocket reference and a supply of fresh socket identifiers. -/
structure ConnState where
  ws : Option Nat
  nextId : Nat

/-- Result of a connect call: the new state and the socket events it
caused, in order. -/
structure ConnectResult where
  state : ConnState
  events : List ClientAction

/-- disconnect: when a socket is referenced, close it and drop the
reference; a no-op otherwise. -/
def disconnect (s : ConnState) : ConnState × List ClientAction :=
  match s.ws with
  | some c => ({ s with ws := none }, [ClientAction.wsClose c])
  | none => (s, [])

/-- connect: when a socket reference exists, first await disconnect (which
closes it and drops the reference), then create the new socket and store
its reference. -/
def connect (s : ConnState) : ConnectResult :=
  let step := if s.ws.isSome then disconnect s else (s, [])
  { state := { ws := some step.1.nextId, nextId := step.1.nextId + 1 },
    events := step.2 ++ [ClientAction.wsOpen step.1.nextId] }

/-- Removal of a closed connection from the set of open ones. -/
def removeConn (c : Nat) : List Nat → List Nat
  | [] => []
  | x :: rest => if x = c then rest else x :: removeConn c rest

/-- Effect of one socket event on the set of open connections. -/
def applyConnEvent (conns : List Nat) : ClientAction → List Nat
  | ClientAction.wsClose c => removeConn c conns
  | ClientAction.wsOpen c => conns ++ [c]
  | _ => conns

/-- The set of open connections after a list of socket events. -/
def connsAfter (conns : List Nat) : List ClientAction → List Nat
  | [] => conns
  | e :: rest => connsAfter (applyConnEvent conns e) rest

/-- Path join used by saveImages for the output file. -/
def pathJoin (dir file : String) : String :=
  dir ++ "/" ++ file

/-- Inner loop of saveImages over the artifacts of one node: each artifact
appends one write of its bytes at the joined path; reading the bytes of a
null blob throws. -/
def writeArtifacts (outputDir : String) (imgs : List ImageContainer)
    (acc : List (String × Blob)) : Except String (List (String × Blob)) :=
  match imgs with
  | [] => Except.ok acc
  | img :: rest =>
    match img.blob with
    | none => Except.error typeErrorMsg
    | some b => writeArtifacts outputDir rest (acc ++ [(pathJoin outputDir img.image.filename, b)])

/-- Outer loop of saveImages over the nodes of the result mapping. -/
def saveImagesAux (outputDir : String) (response : List (String × List ImageContainer))
    (acc : List (String × Blob)) : Except String (List (String × Blob)) :=
  match response with
  | [] => Except.ok acc
  | p :: rest =>
    match writeArtifacts outputDir p.2 acc with
    | Except.error e => Except.error e
    | Except.ok acc2 => saveImagesAux outputDir rest acc2

/-- saveImages: write every artifact of every node of the result mapping,
in iteration order, returning the write events (path, bytes) performed. -/
def saveImages (response : List (String × List ImageContainer)) (outputDir : String) :
    Except String (List (String × Blob)) :=
  saveImagesAux outputDir response []

/-- Overwriting write of one file into a filesystem modelled as a map from
path to contents. -/
def applyWrite (fs : String → Option Blob) (p : String) (b : Blob) : String → Option Blob :=
  fun q => if q = p then some b else fs q

/-- A server failure response: status 500 whose body is not JSON. -/
def parseFailMsg : String := "Unexpected token in JSON"

/-- Concrete failing HTTP response: status 500 with a non-JSON body. -/
def res500 : HttpResponse :=
  { status := 500, jsonBody := Except.error parseFailMsg, blobBody := [] }

def errMsgW : String := "bad request"

/-- Concrete 200 response whose JSON body carries an error field. -/
def resErrJson : HttpResponse :=
  { status := 200, jsonBody := Except.ok (Json.obj [(errorKey, Json.str errMsgW)]),
    blobBody := [] }

def fnW : String := "img.png"

def sfW : String := "sub"

def ftW : String := "output"

def pidA : String := "abc"

def refA : ImageRef := { filename := "out.png", subfolder := "", ftype := "output" }

def blobA : Blob := [7, 7]

/-- History record with one image-bearing output node and one output node
without an images key. -/
def histA : HistoryEntry :=
  { outputs := [("1", { images := some [refA] }), ("2", { images := none })] }

def tableA : List (String × HistoryEntry) := [(pidA, histA)]

def envA : ObsEnv :=
  { historyRes := Except.ok (some tableA), fetchImage := fun _ => some blobA }

def contA : ImageContainer := { blob := some blobA, image := refA }

def pidB : String := "job-b"

/-- History record whose single output node has no images key. -/
def histB : HistoryEntry := { outputs := [("1", { images := none })] }

def tableB : List (String × HistoryEntry) := [(pidB, histB)]

def envB : ObsEnv :=
  { historyRes := Except.ok (some tableB), fetchImage := fun _ => none }

def pidN : String := "job-n"

def nodeStrN : String := "3"

def refN : ImageRef := { filename := "n.png", subfolder := "", ftype := "output" }

def blobN : Blob := [4]

def histN : HistoryEntry := { outputs := [("9", { images := some [refN] })] }

def envN : ObsEnv :=
  { historyRes := Except.ok (some [(pidN, histN)]), fetchImage := fun _ => some blobN }

/-- An executing frame that still names an active node. -/
def msgN : WsMessage :=
  { kind := executingKind, data := { node := some nodeStrN, prompt_id := pidN } }

/-- The completion message of the same job. -/
def msgNdone : WsMessage :=
  { kind := executingKind, data := { node := none, prompt_id := pidN } }

def pidE : String := "job-e"

def emptyStr : String := ""

def refE : ImageRef := { filename := "e.png", subfolder := "sub", ftype := "output" }

def blobE : Blob := [5, 6]

def histE : HistoryEntry := { outputs := [("9", { images := some [refE] })] }

def envE : ObsEnv :=
  { historyRes := Except.ok (some [(pidE, histE)]), fetchImage := fun _ => some blobE }

/-- An executing frame whose node field holds the empty string: a non-null
node value that is nonetheless falsy in JavaScript. -/
def msgE : WsMessage :=
  { kind := executingKind, data := { node := some emptyStr, prompt_id := pidE } }

def outE : List (String × List ImageContainer) :=
  [("9", [{ blob := some blobE, image := refE }])]

def pidT : String := "mine"

def otherPid : String := "other"

def statusKind : String := "status"

def envT : ObsEnv := { historyRes := Except.ok none, fetchImage := fun _ => none }

def msgT1 : WsMessage :=
  { kind := executingKind, data := { node := none, prompt_id := otherPid } }

def msgT2 : WsMessage :=
  { kind := statusKind, data := { node := none, prompt_id := otherPid } }

def fsT : List Frame := [Frame.text (Except.ok msgT1), Frame.text (Except.ok msgT2)]

def obsNone : ObsEnv := { historyRes := Except.ok none, fetchImage := fun _ => none }

def stF : ClientState := { ws := some 0 }

def bodyW : String := "workflow"

def envF : GetImagesEnv := { promptResponse := res500, obs := obsNone, frames := [] }

def refS : ImageRef := { filename := "out.png", subfolder := "", ftype := "output" }

def blobS : Blob := [1, 2, 3]

def contS : ImageContainer := { blob := some blobS, image := refS }

def respS : List (String × List ImageContainer) := [("1", [contS])]

def dirS : String := "D"

def sampleNodeClass : String := "KSampler"

def sampleServer : String := "srv"

def sampleClientId : String := "cid"

theorem cfetch_non200 (params : FetchParams) (res : HttpResponse)
    (h : res.status ≠ 200) : cfetch params res = Except.ok CFetchResult.null := by
  unfold cfetch
  rw [if_pos h]

theorem queuePrompt_yields_null (body : String) (res : HttpResponse) :
    queuePrompt body res = Except.ok CFetchResult.null := by
  unfold queuePrompt queuePromptParams cfetch
  split
  · rfl
  · rfl

theorem onMessage_other_pid (pid : String) (env : ObsEnv)
    (acc : List (String × List ImageContainer)) (msg : WsMessage)
    (h : msg.data.prompt_id ≠ pid) :
    onMessage pid env acc (Frame.text (Except.ok msg)) = StepResult.ignore := by
  simp only [onMessage]
  by_cases h1 : msg.kind = executingKind
  · rw [if_pos h1]
    by_cases h2 : optStrFalsy msg.data.node = true
    · rw [if_pos h2, if_neg h]
    · rw [if_neg h2]
  · rw [if_neg h1]

theorem deliverFrames_all_other (pid : String) (env : ObsEnv) (st : ObsState)
    (fs : List Frame) (h : fs.all (frameHasOtherPid pid) = true) :
    deliverFrames pid env st fs = st := by
  induction fs generalizing st with
  | nil => rfl
  | cons f rest ih =>
    simp only [List.all_cons, Bool.and_eq_true] at h
    obtain ⟨hf, hrest⟩ := h
    have hstep : deliverFrame pid env st f = st := by
      match f with
      | Frame.binary => simp [frameHasOtherPid] at hf
      | Frame.text (Except.error e) => simp [frameHasOtherPid] at hf
      | Frame.text (Except.ok msg) =>
        simp only [frameHasOtherPid, bne_iff_ne, ne_eq] at hf
        unfold deliverFrame
        split
        · rfl
        · rw [onMessage_other_pid pid env st.outputImages msg hf]
    show deliverFrames pid env (deliverFrame pid env st f) rest = st
    rw [hstep]
    exact ih st hrest

theorem hasKey_eq_memStr (fields : List (String × α)) (k : String) :
    hasKey fields k = memStr k (fields.map Prod.fst) := by
  induction fields with
  | nil => rfl
  | cons p rest ih => simp [hasKey, memStr, ih]

theorem objAssign_fresh (fields : List (String × α)) (k : String) (v : α)
    (h : memStr k (fields.map Prod.fst) = false) :
    objAssign fields k v = fields ++ [(k, v)] := by
  unfold objAssign
  rw [hasKey_eq_memStr, h]
  rfl

theorem memStr_cons (k x : String) (rest : List String) :
    memStr k (x :: rest) = if x = k then true else memStr k rest := rfl

theorem memStr_append (k : String) (l1 l2 : List String) :
    memStr k (l1 ++ l2) = (memStr k l1 || memStr k l2) := by
  induction l1 with
  | nil => simp [memStr]
  | cons x rest ih =>
    simp only [List.cons_append, memStr_cons]
    by_cases hx : x = k
    · simp [hx]
    · simp [hx, ih]

theorem collect_keys (fetch : ImageRef → Option Blob)
    (outputs : List (String × NodeOutput)) (acc : List (String × List ImageContainer))
    (hd : ∀ k, memStr k (acc.map Prod.fst) = true →
      memStr k (outputs.map Prod.fst) = false)
    (hn : keysDistinct (outputs.map Prod.fst) = true) :
    (collectImages fetch outputs acc).map Prod.fst =
      acc.map Prod.fst ++
        (outputs.filter (fun p => (p.2.images).isSome)).map Prod.fst := by
  induction outputs generalizing acc with
  | nil => simp [collectImages]
  | cons p rest ih =>
    simp only [List.map_cons, keysDistinct] at hn
    have hmem : memStr p.1 (rest.map Prod.fst) = false := by
      cases hc : memStr p.1 (rest.map Prod.fst) with
      | false => rfl
      | true => rw [hc] at hn; simp at hn
    rw [hmem] at hn
    simp only [Bool.false_eq_true, if_false] at hn
    cases himg : p.2.images with
    | none =>
      simp only [collectImages, himg]
      have hd2 : ∀ k, memStr k (acc.map Prod.fst) = true →
          memStr k (rest.map Prod.fst) = false := by
        intro k hk
        have h := hd k hk
        rw [List.map_cons, memStr_cons] at h
        by_cases hx : p.1 = k
        · rw [if_pos hx] at h
          exact absurd h (by simp)
        · rwa [if_neg hx] at h
      rw [ih acc hd2 hn]
      simp [List.filter_cons, himg]
    | some imgs =>
      have hfresh : memStr p.1 (acc.map Prod.fst) = false := by
        cases hc : memStr p.1 (acc.map Prod.fst) with
        | false => rfl
        | true =>
          have h := hd p.1 hc
          rw [List.map_cons, memStr_cons, if_pos rfl] at h
          exact absurd h (by simp)
      simp only [collectImages, himg]
      rw [objAssign_fresh _ _ _ hfresh]
      have hd2 : ∀ k,
          memStr k ((acc ++
            [(p.1, imgs.map (fun i => ({ blob := fetch i, image := i } : ImageContainer)))]).map
              Prod.fst) = true →
          memStr k (rest.map Prod.fst) = false := by
        intro k hk
        rw [List.map_append, memStr_append] at hk
        simp only [List.map_cons, List.map_nil] at hk
        cases (Bool.or_eq_true _ _).mp hk with
        | inl hk1 =>
          have h := hd k hk1
          rw [List.map_cons, memStr_cons] at h
          by_cases hx : p.1 = k
          · rw [if_pos hx] at h
            exact absurd h (by simp)
          · rwa [if_neg hx] at h
        | inr hk2 =>
          by_cases hx : p.1 = k
          · subst hx
            exact hmem
          · rw [memStr_cons, if_neg hx] at hk2
            exact absurd hk2 (by simp [memStr])
      rw [ih _ hd2 hn]
      simp [List.map_append, List.filter_cons, himg, List.append_assoc]

theorem getImages_connected_run (c : Nat) (body : String) (env : GetImagesEnv) :
    getImages { ws := some c } body env =
      { actions := [ClientAction.httpRequest promptEndpoint postMethod],
        outcome := GetImagesOutcome.earlyEmpty } := by
  unfold getImages
  simp only [queuePrompt_yields_null]
  rfl

/-- C4: for every request operation (every request goes through cfetch), a
response whose HTTP status is not 200 yields the explicit no-result value
null without any body parsing, whatever the body holds (so no parse error
can be thrown in that case), and a 200 response whose JSON body carries an
error field also yields null. -/
theorem cfetch_failure_yields_null (params : FetchParams) (res : HttpResponse) :
    (res.status ≠ 200 → cfetch params res = Except.ok CFetchResult.null) ∧
    (∀ fields, res.status = 200 → params.json = true →
      res.jsonBody = Except.ok (Json.obj fields) →
      fields.any (fun p => p.1 == errorKey) = true →
      cfetch params res = Except.ok CFetchResult.null) := by
  constructor
  · exact fun h => cfetch_non200 params res h
  · intro fields h200 hj hb he
    unfold cfetch
    simp [h200, hj, hb, jsFalsy, jsInCheck, he]

theorem cfetch_failure_yields_null_witness :
    cfetch defaultFetchParams res500 = Except.ok CFetchResult.null ∧
    resErrJson.status = 200 ∧
    cfetch defaultFetchParams resErrJson = Except.ok CFetchResult.null :=
  ⟨(cfetch_failure_yields_null defaultFetchParams res500).1 (by decide),
   rfl,
   (cfetch_failure_yields_null defaultFetchParams resErrJson).2
     [(errorKey, Json.str errMsgW)] rfl rfl rfl (by decide)⟩

/-- C10: getImage goes through cfetch in blob mode, so a response with a
status other than 200 makes it resolve with null instead of a blob; the
operation does not reject in that case. -/
theorem getImage_non200_resolves_null (filename subfolder ftype : String)
    (res : HttpResponse) (h : res.status ≠ 200) :
    getImage filename subfolder ftype res = Except.ok CFetchResult.null :=
  cfetch_non200 (getImageParams filename subfolder ftype) res h

theorem getImage_non200_resolves_null_witness :
    res500.status ≠ 200 ∧
    getImage fnW sfW ftW res500 = Except.ok CFetchResult.null :=
  ⟨by decide, getImage_non200_resolves_null fnW sfW ftW res500 (by decide)⟩

/-- C9: the endpoint string getObjectInfo passes to cfetch is not the bare
object_info path the interface table names: the template literal appends a
stray colon-and-quotes fragment, with and without a node class, and that
fragment reaches the request URL. -/
theorem getObjectInfo_endpoint_has_stray_suffix :
    getObjectInfoEndpoint none = "object_info : ''" ∧
    getObjectInfoEndpoint (some sampleNodeClass) = "object_info/KSampler : ''" ∧
    getObjectInfoEndpoint none ≠ "object_info" ∧
    getObjectInfoEndpoint (some sampleNodeClass) ≠ "object_info/KSampler" ∧
    curl false sampleServer sampleClientId (getObjectInfoEndpoint none) =
      "http://srv/object_info : ''?clientId=cid" := by
  refine ⟨by decide, by decide, by decide, by decide, by decide⟩

/-- C5: getImages called without a WebSocket reference throws the
not-connected error and performs no action at all: nothing is submitted,
no observer is registered, and no code path of getImages ever opens a
socket. -/
theorem getImages_not_connected_fails_without_actions (body : String)
    (env : GetImagesEnv) (st : ClientState) :
    getImages { ws := none } body env =
      { actions := [], outcome := GetImagesOutcome.thrown notConnectedMsg } ∧
    (getImages st body env).actions.any ClientAction.isWsOpen = false := by
  constructor
  · rfl
  · match st with
    | { ws := none } => rfl
    | { ws := some c } =>
      rw [getImages_connected_run c body env]
      rfl

/-- C6 amended: when the submission request yields no result, getImages
resolves with an empty mapping rather than failing, and registers no
observer.  In this build the submission request always yields null, since
the params object queuePrompt hands to cfetch carries no json flag, so
this is the outcome of every connected call. -/
theorem getImages_failed_submission_resolves_empty (c : Nat) (body : String)
    (env : GetImagesEnv) :
    getImages { ws := some c } body env =
      { actions := [ClientAction.httpRequest promptEndpoint postMethod],
        outcome := GetImagesOutcome.earlyEmpty } ∧
    ClientAction.registerObserver ∉ (getImages { ws := some c } body env).actions := by
  have h := getImages_connected_run c body env
  refine ⟨h, ?_⟩
  rw [h]
  decide

/-- C6 counterexample: a concrete connected call whose submission request
fails (HTTP 500) resolves with the empty mapping; the operation does not
fail, contradicting the claim that a failed submission fails the whole
operation. -/
theorem failed_submission_does_not_reject :
    envF.promptResponse.status = 500 ∧
    (getImages stF bodyW envF).outcome = GetImagesOutcome.earlyEmpty ∧
    GetImagesOutcome.isThrown (getImages stF bodyW envF).outcome = false := by
  refine ⟨rfl, rfl, rfl⟩

/-- C7: connect with an existing socket reference first closes that socket
and drops the reference, then opens the new one: the close event precedes
the open event, and the set of open connections never holds more than one
element at any point of the event sequence. -/
theorem connect_closes_existing_before_opening (c n : Nat) :
    connect { ws := some c, nextId := n } =
      { state := { ws := some n, nextId := n + 1 },
        events := [ClientAction.wsClose c, ClientAction.wsOpen n] } ∧
    connsAfter [c] [] = [c] ∧
    connsAfter [c] [ClientAction.wsClose c] = [] ∧
    connsAfter [c] [ClientAction.wsClose c, ClientAction.wsOpen n] = [n] := by
  refine ⟨rfl, rfl, ?_, ?_⟩
  · simp [connsAfter, applyConnEvent, removeConn]
  · simp [connsAfter, applyConnEvent, removeConn]

/-- C1 amended: a completion frame (executing kind, null node, matching
prompt id) makes the observer fetch the history record, deregister itself
and resolve with the populated mapping, and the keys of that mapping are
exactly the output node identifiers of the history record whose output
lists an images key (nodes without one are skipped). -/
theorem completion_resolves_image_bearing_nodes (pid : String) (env : ObsEnv)
    (table : List (String × HistoryEntry)) (hist : HistoryEntry)
    (h1 : env.historyRes = Except.ok (some table))
    (h2 : lookupKey pid table = some hist)
    (h3 : keysDistinct (hist.outputs.map Prod.fst) = true) :
    deliverFrames pid env initObsState [completionFrame pid] =
      { registered := false,
        outputImages := collectImages env.fetchImage hist.outputs [],
        settled := some (Except.ok (collectImages env.fetchImage hist.outputs [])) } ∧
    (collectImages env.fetchImage hist.outputs []).map Prod.fst =
      (hist.outputs.filter (fun p => (p.2.images).isSome)).map Prod.fst := by
  constructor
  · have hstep : onMessage pid env [] (completionFrame pid) =
        StepResult.resolved (collectImages env.fetchImage hist.outputs []) := by
      simp [completionFrame, onMessage, h1, h2, optStrFalsy]
    simp [deliverFrames, deliverFrame, hstep, initObsState]
  · have h := collect_keys env.fetchImage hist.outputs []
      (by intro k hk; simp [memStr] at hk) h3
    simpa using h

theorem completion_resolves_image_bearing_nodes_witness :
    deliverFrames pidA envA initObsState [completionFrame pidA] =
      { registered := false,
        outputImages := collectImages envA.fetchImage histA.outputs [],
        settled := some (Except.ok (collectImages envA.fetchImage histA.outputs [])) } ∧
    (collectImages envA.fetchImage histA.outputs []).map Prod.fst =
      (histA.outputs.filter (fun p => (p.2.images).isSome)).map Prod.fst ∧
    collectImages envA.fetchImage histA.outputs [] = [(("1" : String), [contA])] :=
  ⟨(completion_resolves_image_bearing_nodes pidA envA tableA histA rfl
      (by decide) (by decide)).1,
   (completion_resolves_image_bearing_nodes pidA envA tableA histA rfl
      (by decide) (by decide)).2,
   by decide⟩

/-- C1 counterexample: a history record with one output node that has no
images key.  The completion frame resolves with the empty mapping, whose
key set differs from the set of output node identifiers of the record, so
the keys of the mapping do not equal all output node identifiers. -/
theorem completion_keys_not_all_output_nodes :
    onMessage pidB envB [] (completionFrame pidB) = StepResult.resolved [] ∧
    histB.outputs.map Prod.fst = [("1" : String)] ∧
    (([] : List (String × List ImageContainer)).map Prod.fst) ≠ [("1" : String)] := by
  refine ⟨by decide, rfl, by decide⟩

/-- C2 amended: a frame whose node field holds a non-empty string is never
treated as a completion signal, whatever its prompt id; and a parsed frame
acts at all only when its kind is executing, its node field is falsy (null
or the empty string) and its prompt id matches.  The original claim fails
for the empty string: a non-null empty-string node is falsy in JavaScript
and is treated as a completion signal. -/
theorem nonnull_nonempty_node_never_completion (pid : String) (env : ObsEnv)
    (acc : List (String × List ImageContainer)) (msg msg2 : WsMessage) (s : String)
    (h1 : msg.data.node = some s) (h2 : s ≠ "") :
    onMessage pid env acc (Frame.text (Except.ok msg)) = StepResult.ignore ∧
    (onMessage pid env acc (Frame.text (Except.ok msg2)) ≠ StepResult.ignore →
      msg2.kind = executingKind ∧ optStrFalsy msg2.data.node = true ∧
        msg2.data.prompt_id = pid) := by
  constructor
  · simp only [onMessage]
    by_cases hk : msg.kind = executingKind
    · rw [if_pos hk]
      have hf : optStrFalsy msg.data.node = false := by
        rw [h1]
        simp [optStrFalsy, h2]
      rw [if_neg (by simp [hf])]
    · rw [if_neg hk]
  · intro hne
    simp only [onMessage] at hne
    by_cases d1 : msg2.kind = executingKind
    · rw [if_pos d1] at hne
      by_cases d2 : optStrFalsy msg2.data.node = true
      · rw [if_pos d2] at hne
        by_cases d3 : msg2.data.prompt_id = pid
        · exact ⟨d1, d2, d3⟩
        · rw [if_neg d3] at hne
          exact absurd rfl hne
      · rw [if_neg d2] at hne
        exact absurd rfl hne
    · rw [if_neg d1] at hne
      exact absurd rfl hne

theorem nonnull_nonempty_node_never_completion_witness :
    onMessage pidN envN [] (Frame.text (Except.ok msgN)) = StepResult.ignore ∧
    (msgNdone.kind = executingKind ∧ optStrFalsy msgNdone.data.node = true ∧
      msgNdone.data.prompt_id = pidN) :=
  ⟨(nonnull_nonempty_node_never_completion pidN envN [] msgN msgNdone nodeStrN
      rfl (by decide)).1,
   (nonnull_nonempty_node_never_completion pidN envN [] msgN msgNdone nodeStrN
      rfl (by decide)).2 (by decide)⟩

/-- C2 counterexample: an executing frame whose node field is the empty
string, a non-null value, with a matching prompt id.  The observer treats
it as a completion signal: it fetches the history record and resolves. -/
theorem empty_string_node_triggers_completion :
    msgE.data.node = some emptyStr ∧
    (msgE.data.node).isSome = true ∧
    onMessage pidE envE [] (Frame.text (Except.ok msgE)) = StepResult.resolved outE := by
  refine ⟨rfl, rfl, by decide⟩

/-- C3: a parsed text frame whose prompt id differs from the submitted one
is ignored by the observer, and a whole sequence of such frames leaves the
pending operation untouched: not resolved, not rejected, accumulated state
unchanged, observer still registered. -/
theorem other_job_frames_leave_observer_pending (pid : String) (env : ObsEnv)
    (st : ObsState) (acc : List (String × List ImageContainer)) (msg : WsMessage)
    (fs : List Frame)
    (h1 : msg.data.prompt_id ≠ pid)
    (h2 : fs.all (frameHasOtherPid pid) = true) :
    onMessage pid env acc (Frame.text (Except.ok msg)) = StepResult.ignore ∧
    deliverFrames pid env st fs = st :=
  ⟨onMessage_other_pid pid env acc msg h1, deliverFrames_all_other pid env st fs h2⟩

theorem other_job_frames_leave_observer_pending_witness :
    onMessage pidT envT [] (Frame.text (Except.ok msgT1)) = StepResult.ignore ∧
    deliverFrames pidT envT initObsState fsT = initObsState :=
  other_job_frames_leave_observer_pending pidT envT initObsState [] msgT1 fsT
    (by decide) (by decide)

theorem writeArtifacts_ok (outputDir : String) (imgs : List ImageContainer)
    (acc : List (String × Blob))
    (h : ∀ img ∈ imgs, (img.blob).isSome = true) :
    writeArtifacts outputDir imgs acc =
      Except.ok (acc ++ imgs.map (fun img =>
        (pathJoin outputDir img.image.filename, (img.blob).getD []))) := by
  induction imgs generalizing acc with
  | nil => simp [writeArtifacts]
  | cons img rest ih =>
    have h1 : (img.blob).isSome = true := h img (by simp)
    obtain ⟨b, hb⟩ := Option.isSome_iff_exists.mp h1
    simp only [writeArtifacts, hb]
    rw [ih (acc ++ [(pathJoin outputDir img.image.filename, b)])
      (fun i hi => h i (by simp [hi]))]
    simp [hb]

theorem saveImagesAux_ok (outputDir : String)
    (response : List (String × List ImageContainer)) (acc : List (String × Blob))
    (h : ∀ p ∈ response, ∀ img ∈ p.2, (img.blob).isSome = true) :
    saveImagesAux outputDir response acc =
      Except.ok (acc ++ response.flatMap (fun p => p.2.map (fun img =>
        (pathJoin outputDir img.image.filename, (img.blob).getD [])))) := by
  induction response generalizing acc with
  | nil => simp [saveImagesAux]
  | cons p rest ih =>
    simp only [saveImagesAux]
    rw [writeArtifacts_ok outputDir p.2 acc (fun i hi => h p (by simp) i hi)]
    show saveImagesAux outputDir rest
        (acc ++ p.2.map (fun img =>
          (pathJoin outputDir img.image.filename, (img.blob).getD []))) = _
    rw [ih _ (fun q hq i hi => h q (by simp [hq]) i hi)]
    simp [List.flatMap_cons]

/-- C8: with the bytes of every artifact present, saveImages performs exactly
one write per artifact, in iteration order, each at the path obtained by
joining the output directory with the filename of the artifact, carrying
the fetched bytes of that artifact; a write is an overwrite, so an existing
file at that path ends up holding the new bytes. -/
theorem saveImages_one_write_per_artifact (response : List (String × List ImageContainer))
    (outputDir : String)
    (h : ∀ p ∈ response, ∀ img ∈ p.2, (img.blob).isSome = true) :
    saveImages response outputDir =
      Except.ok (response.flatMap (fun p => p.2.map (fun img =>
        (pathJoin outputDir img.image.filename, (img.blob).getD [])))) ∧
    (response.flatMap (fun p => p.2.map (fun img =>
        (pathJoin outputDir img.image.filename, (img.blob).getD [])))).length =
      (response.map (fun p => p.2.length)).sum ∧
    (∀ fs p b, applyWrite fs p b p = some b) := by
  refine ⟨?_, ?_, ?_⟩
  · have hs := saveImagesAux_ok outputDir response [] h
    simpa [saveImages] using hs
  · clear h
    induction response with
    | nil => simp
    | cons p rest ih => simp [List.flatMap_cons, ih]
  · intro fs p b
    simp [applyWrite]

theorem saveImages_one_write_per_artifact_witness :
    saveImages respS dirS =
      Except.ok (respS.flatMap (fun p => p.2.map (fun img =>
        (pathJoin dirS img.image.filename, (img.blob).getD [])))) ∧
    saveImages respS dirS = Except.ok [(("D/out.png" : String), blobS)] :=
  ⟨(saveImages_one_write_per_artifact respS dirS (by decide)).1, by rfl⟩

theorem getImages_not_connected_fails_without_actions_witness :
    getImages { ws := none } bodyW envF =
      { actions := [], outcome := GetImagesOutcome.thrown notConnectedMsg } ∧
    (getImages stF bodyW envF).actions.any ClientAction.isWsOpen = false :=
  getImages_not_connected_fails_without_actions bodyW envF stF

theorem getImages_failed_submission_resolves_empty_witness :
    getImages { ws := some 0 } bodyW envF =
      { actions := [ClientAction.httpRequest promptEndpoint postMethod],
        outcome := GetImagesOutcome.earlyEmpty } ∧
    ClientAction.registerObserver ∉ (getImages { ws := some 0 } bodyW envF).actions :=
  getImages_failed_submission_resolves_empty 0 bodyW envF

theorem connect_closes_existing_before_opening_witness :
    connect { ws := some 3, nextId := 7 } =
      { state := { ws := some 7, nextId := 8 },
        events := [ClientAction.wsClose 3, ClientAction.wsOpen 7] } ∧
    connsAfter [3] [] = [3] ∧
    connsAfter [3] [ClientAction.wsClose 3] = [] ∧
    connsAfter [3] [ClientAction.wsClose 3, ClientAction.wsOpen 7] = [7] :=
  connect_closes_existing_before_opening 3 7
